import Mathlib

/-!
Verification of the ts-json-rpc library (packages core, server, client).

The development shallowly embeds the JavaScript runtime values manipulated by
the library as an inductive `Json` type, and translates the source functions
of `packages/core/src/index.ts`, `packages/server/src/index.ts` and
`packages/client/src/index.ts` into executable Lean definitions.  Handlers,
transports and the JSON text parser are modelled as explicit function
parameters (they are external collaborators in the source); asynchronous
results and thrown exceptions are modelled with `Except`.
-/

namespace TsJsonRpc

/-- JavaScript runtime values as seen by the library: `undefined` models the
JavaScript `undefined` value (absent members), the other constructors model
the JSON-representable values.  Numbers are modelled as integers (every
number appearing in the library protocol paths is integral). -/
inductive Json where
  | undefined : Json
  | null : Json
  | bool : Bool → Json
  | num : Int → Json
  | str : String → Json
  | arr : List Json → Json
  | obj : List (String × Json) → Json
deriving Repr

/-- The JavaScript `typeof` operator (restricted to the values of `Json`).
Note that `typeof null`, `typeof` of an array and `typeof` of an object all
evaluate to the string `"object"`. -/
def Json.typeof : Json → String
  | .undefined => "undefined"
  | .null => "object"
  | .bool _ => "boolean"
  | .num _ => "number"
  | .str _ => "string"
  | .arr _ => "object"
  | .obj _ => "object"

/-- Strict equality `v === null`. -/
def Json.isNull : Json → Bool
  | .null => true
  | _ => false

/-- Strict equality `v === undefined`. -/
def Json.isUndefined : Json → Bool
  | .undefined => true
  | _ => false

/-- Strict equality of a value against a string literal (`v === "s"`). -/
def Json.strictEqStr : Json → String → Bool
  | .str t, s => t == s
  | _, _ => false

/-- First-match lookup in a JavaScript object's own fields. -/
def lookupField : List (String × Json) → String → Option Json
  | [], _ => none
  | (k, v) :: rest, key => if k = key then some v else lookupField rest key

/-- The canonical array-index strings (`"0"`, `"1"`, ..., no leading zero):
these and `"length"` are the own properties of a JavaScript array probed by
the `in` operator. -/
def canonicalIndex (k : String) : Option Nat :=
  match k.data with
  | [] => none
  | c :: cs =>
      if (c :: cs).all Char.isDigit && (c ≠ '0' || cs = []) then
        some ((c :: cs).foldl (fun n ch => n * 10 + (ch.toNat - 48)) 0)
      else none

/-- The JavaScript `in` operator on an object or array receiver (`k in v`).
On arrays, the own properties are the canonical indices and `length`.
On any other receiver the JavaScript operator throws; the throwing behaviour
is modelled separately by `jsInE`, and the predicates of the source only
apply `in` after a `typeof v === 'object' && v !== null` guard. -/
def Json.hasProp : Json → String → Bool
  | .obj fs, k => (lookupField fs k).isSome
  | .arr xs, k =>
      (match canonicalIndex k with
       | some n => decide (n < xs.length)
       | none => k == "length")
  | _, _ => false

/-- JavaScript member access `v.k`: the field's value on objects, and
`undefined` when the key is absent or the receiver is not an object.
(Member access on `null`/`undefined` receivers throws in JavaScript; the
source only performs it on values already classified as objects.) -/
def Json.getProp : Json → String → Json
  | .obj fs, k => (lookupField fs k).getD .undefined
  | _, _ => .undefined

/-- JavaScript truthiness of a value. -/
def Json.truthy : Json → Bool
  | .undefined => false
  | .null => false
  | .bool b => b
  | .num n => decide (n ≠ 0)
  | .str s => decide (s ≠ "")
  | .arr _ => true
  | .obj _ => true

/-! ## packages/core/src/index.ts — constructors -/

/-- `JSONRPC_ERROR_CODES` from core. -/
inductive ErrorCodeKey where
  | PARSE_ERROR | INVALID_REQUEST | METHOD_NOT_FOUND | INVALID_PARAMS | INTERNAL_ERROR
deriving DecidableEq, Repr

def JSONRPC_ERROR_CODES : ErrorCodeKey → Int
  | .PARSE_ERROR => -32700
  | .INVALID_REQUEST => -32600
  | .METHOD_NOT_FOUND => -32601
  | .INVALID_PARAMS => -32602
  | .INTERNAL_ERROR => -32603

/-- `JSONRPC_ERROR_MESSAGES` from core (keyed by code). -/
def JSONRPC_ERROR_MESSAGES : Int → String := fun c =>
  if c = -32700 then "Parse error"
  else if c = -32600 then "Invalid Request"
  else if c = -32601 then "Method not found"
  else if c = -32602 then "Invalid params"
  else if c = -32603 then "Internal error"
  else ""

/-- `createJsonRpcRequest(method, id, params?)`: the `params` key is added
only when the argument is not `undefined`. -/
def createJsonRpcRequest (method : String) (id : Json) (params : Json) : Json :=
  .obj ([("jsonrpc", Json.str "2.0"), ("method", Json.str method), ("id", id)] ++
    (if params.isUndefined then [] else [("params", params)]))

/-- `createJsonRpcNotification(method, params?)`. -/
def createJsonRpcNotification (method : String) (params : Json) : Json :=
  .obj ([("jsonrpc", Json.str "2.0"), ("method", Json.str method)] ++
    (if params.isUndefined then [] else [("params", params)]))

/-- `createJsonRpcSuccessResponse(id, result)`. -/
def createJsonRpcSuccessResponse (id : Json) (result : Json) : Json :=
  .obj [("jsonrpc", Json.str "2.0"), ("id", id), ("result", result)]

/-- `createJsonRpcErrorResponse(id, error)`. -/
def createJsonRpcErrorResponse (id : Json) (error : Json) : Json :=
  .obj [("jsonrpc", Json.str "2.0"), ("id", id), ("error", error)]

/-- `createJsonRpcError(code, message, data?)`: the `data` key is added only
when the argument is present. -/
def createJsonRpcError (code : Int) (message : String) (data : Option Json) : Json :=
  .obj ([("code", Json.num code), ("message", Json.str message)] ++
    (match data with | none => [] | some d => [("data", d)]))

/-- `createStandardJsonRpcError(code, data?)`. -/
def createStandardJsonRpcError (code : ErrorCodeKey) (data : Option Json) : Json :=
  createJsonRpcError (JSONRPC_ERROR_CODES code) (JSONRPC_ERROR_MESSAGES (JSONRPC_ERROR_CODES code)) data

/-! ## packages/core/src/index.ts — classification predicates -/

/-- `isJSONRPCRequest(obj)`. -/
def isJSONRPCRequest (j : Json) : Bool :=
  decide (j.typeof = "object") &&
  !j.isNull &&
  j.hasProp "jsonrpc" &&
  (j.getProp "jsonrpc").strictEqStr "2.0" &&
  j.hasProp "method" &&
  decide ((j.getProp "method").typeof = "string") &&
  j.hasProp "id" &&
  (decide ((j.getProp "id").typeof = "string") || decide ((j.getProp "id").typeof = "number"))

/-- `isJSONRPCNotification(obj)`. -/
def isJSONRPCNotification (j : Json) : Bool :=
  decide (j.typeof = "object") &&
  !j.isNull &&
  j.hasProp "jsonrpc" &&
  (j.getProp "jsonrpc").strictEqStr "2.0" &&
  j.hasProp "method" &&
  decide ((j.getProp "method").typeof = "string") &&
  !(j.hasProp "id")

/-- `isJSONRPCSuccessResponse(obj)`. -/
def isJSONRPCSuccessResponse (j : Json) : Bool :=
  decide (j.typeof = "object") &&
  !j.isNull &&
  j.hasProp "jsonrpc" &&
  (j.getProp "jsonrpc").strictEqStr "2.0" &&
  j.hasProp "result" &&
  j.hasProp "id" &&
  (decide ((j.getProp "id").typeof = "string") || decide ((j.getProp "id").typeof = "number")) &&
  !(j.hasProp "error")

/-- `isJSONRPCErrorResponse(obj)`. -/
def isJSONRPCErrorResponse (j : Json) : Bool :=
  decide (j.typeof = "object") &&
  !j.isNull &&
  j.hasProp "jsonrpc" &&
  (j.getProp "jsonrpc").strictEqStr "2.0" &&
  j.hasProp "error" &&
  decide ((j.getProp "error").typeof = "object") &&
  !(j.getProp "error").isNull &&
  (j.getProp "error").hasProp "code" &&
  decide (((j.getProp "error").getProp "code").typeof = "number") &&
  (j.getProp "error").hasProp "message" &&
  decide (((j.getProp "error").getProp "message").typeof = "string") &&
  j.hasProp "id" &&
  ((j.getProp "id").isNull || decide ((j.getProp "id").typeof = "string") ||
    decide ((j.getProp "id").typeof = "number")) &&
  !(j.hasProp "result")

/-- `isJSONRPCResponse(obj)`. -/
def isJSONRPCResponse (j : Json) : Bool :=
  isJSONRPCSuccessResponse j || isJSONRPCErrorResponse j

/-- `isJSONRPCError(obj)`. -/
def isJSONRPCError (j : Json) : Bool :=
  decide (j.typeof = "object") &&
  !j.isNull &&
  j.hasProp "code" &&
  decide ((j.getProp "code").typeof = "number") &&
  j.hasProp "message" &&
  decide ((j.getProp "message").typeof = "string")

/-! ## Exception-aware evaluation of the classification predicates

JavaScript's `in` operator throws a `TypeError` when its right operand is
not an object; the short-circuiting `&&` chains of the source predicates
guard every `in` with `typeof v === 'object' && v !== null`.  To settle the
never-throws property the predicates are re-evaluated in an `Except` monad
in which `in` has its real throwing behaviour. -/

/-- JavaScript `!` with a possibly-throwing operand. -/
def notE (a : Except String Bool) : Except String Bool :=
  match a with
  | .error e => .error e
  | .ok b => .ok (!b)

/-- JavaScript `&&` with a possibly-throwing left operand: a thrown error
propagates, a falsy left operand short-circuits, otherwise the right operand
is evaluated. -/
def andE (a : Except String Bool) (b : Unit → Except String Bool) : Except String Bool :=
  match a with
  | .error e => .error e
  | .ok false => .ok false
  | .ok true => b ()

/-- Embeds an already-evaluated boolean subexpression. -/
def pureB (b : Bool) : Except String Bool := .ok b

/-- The JavaScript `in` operator with its throwing behaviour: `k in v`
throws a `TypeError` when `v` is not an object (this includes `null` and
`undefined`); on objects and arrays it tests property presence. -/
def jsInE (k : String) (v : Json) : Except String Bool :=
  match v with
  | .obj _ => .ok (v.hasProp k)
  | .arr _ => .ok (v.hasProp k)
  | _ => .error "TypeError"

/-- `isJSONRPCRequest` evaluated with the throwing `in` operator. -/
def isJSONRPCRequestE (j : Json) : Except String Bool :=
  andE (pureB (decide (j.typeof = "object"))) fun _ =>
  andE (pureB (!j.isNull)) fun _ =>
  andE (jsInE "jsonrpc" j) fun _ =>
  andE (pureB ((j.getProp "jsonrpc").strictEqStr "2.0")) fun _ =>
  andE (jsInE "method" j) fun _ =>
  andE (pureB (decide ((j.getProp "method").typeof = "string"))) fun _ =>
  andE (jsInE "id" j) fun _ =>
  pureB (decide ((j.getProp "id").typeof = "string") || decide ((j.getProp "id").typeof = "number"))

/-- `isJSONRPCNotification` evaluated with the throwing `in` operator. -/
def isJSONRPCNotificationE (j : Json) : Except String Bool :=
  andE (pureB (decide (j.typeof = "object"))) fun _ =>
  andE (pureB (!j.isNull)) fun _ =>
  andE (jsInE "jsonrpc" j) fun _ =>
  andE (pureB ((j.getProp "jsonrpc").strictEqStr "2.0")) fun _ =>
  andE (jsInE "method" j) fun _ =>
  andE (pureB (decide ((j.getProp "method").typeof = "string"))) fun _ =>
  notE (jsInE "id" j)

/-- `isJSONRPCSuccessResponse` evaluated with the throwing `in` operator. -/
def isJSONRPCSuccessResponseE (j : Json) : Except String Bool :=
  andE (pureB (decide (j.typeof = "object"))) fun _ =>
  andE (pureB (!j.isNull)) fun _ =>
  andE (jsInE "jsonrpc" j) fun _ =>
  andE (pureB ((j.getProp "jsonrpc").strictEqStr "2.0")) fun _ =>
  andE (jsInE "result" j) fun _ =>
  andE (jsInE "id" j) fun _ =>
  andE (pureB (decide ((j.getProp "id").typeof = "string") ||
    decide ((j.getProp "id").typeof = "number"))) fun _ =>
  notE (jsInE "error" j)

/-- `isJSONRPCErrorResponse` evaluated with the throwing `in` operator. -/
def isJSONRPCErrorResponseE (j : Json) : Except String Bool :=
  andE (pureB (decide (j.typeof = "object"))) fun _ =>
  andE (pureB (!j.isNull)) fun _ =>
  andE (jsInE "jsonrpc" j) fun _ =>
  andE (pureB ((j.getProp "jsonrpc").strictEqStr "2.0")) fun _ =>
  andE (jsInE "error" j) fun _ =>
  andE (pureB (decide ((j.getProp "error").typeof = "object"))) fun _ =>
  andE (pureB (!(j.getProp "error").isNull)) fun _ =>
  andE (jsInE "code" (j.getProp "error")) fun _ =>
  andE (pureB (decide (((j.getProp "error").getProp "code").typeof = "number"))) fun _ =>
  andE (jsInE "message" (j.getProp "error")) fun _ =>
  andE (pureB (decide (((j.getProp "error").getProp "message").typeof = "string"))) fun _ =>
  andE (jsInE "id" j) fun _ =>
  andE (pureB ((j.getProp "id").isNull ||
    decide ((j.getProp "id").typeof = "string") ||
    decide ((j.getProp "id").typeof = "number"))) fun _ =>
  notE (jsInE "result" j)

/-- `isJSONRPCResponse` evaluated with the throwing `in` operator
(JavaScript `||` short-circuits symmetrically to `&&`). -/
def isJSONRPCResponseE (j : Json) : Except String Bool :=
  match isJSONRPCSuccessResponseE j with
  | .error e => .error e
  | .ok true => .ok true
  | .ok false => isJSONRPCErrorResponseE j

/-- `isJSONRPCError` evaluated with the throwing `in` operator. -/
def isJSONRPCErrorE (j : Json) : Except String Bool :=
  andE (pureB (decide (j.typeof = "object"))) fun _ =>
  andE (pureB (!j.isNull)) fun _ =>
  andE (jsInE "code" j) fun _ =>
  andE (pureB (decide ((j.getProp "code").typeof = "number"))) fun _ =>
  andE (jsInE "message" j) fun _ =>
  pureB (decide ((j.getProp "message").typeof = "string"))

/-! ## packages/server/src/index.ts — the dispatcher

The method map is modelled as a partial map from method names to handlers
(`methods[method]` is `undefined`, hence falsy, exactly when the name is
absent); a handler invocation either returns a value or throws one, modelled
with `Except` (the thrown/rejected value on the left).  Each operation also
reports the list of method names whose handler was actually invoked, so that
frame conditions ("no handler is invoked") can be stated. -/

/-- A method handler: `(params, context) => result`, possibly throwing. -/
def Handler : Type := Json → Json → Except Json Json

/-- Result of `handleSingleRequest`: the response value (`Json.null` when
the source returns `null`) together with the invoked handler names. -/
structure SingleOutcome where
  response : Json
  invoked : List String
deriving Repr

/-- `handleSingleRequest(request, context)` from the server. -/
def handleSingleRequest (methods : String → Option Handler) (strict : Bool)
    (context : Json) (request : Json) : SingleOutcome :=
  let isRequest := isJSONRPCRequest request
  let isNotification := isJSONRPCNotification request
  if !isRequest && !isNotification then
    ⟨createJsonRpcErrorResponse Json.null (createStandardJsonRpcError .INVALID_REQUEST none), []⟩
  else
    let methodName := match request.getProp "method" with
      | .str s => s
      | _ => ""   -- unreachable: the guard above forces `method` to be a string
    let params := request.getProp "params"
    let id := if isRequest then request.getProp "id" else Json.null
    match methods methodName with
    | none =>
        if isNotification then ⟨Json.null, []⟩
        else if strict then
          ⟨createJsonRpcErrorResponse id (createStandardJsonRpcError .METHOD_NOT_FOUND none), []⟩
        else ⟨Json.null, []⟩
    | some handler =>
        match handler params context with
        | .ok result =>
            if isNotification then ⟨Json.null, [methodName]⟩
            else ⟨createJsonRpcSuccessResponse id result, [methodName]⟩
        | .error e =>
            if isNotification then ⟨Json.null, [methodName]⟩
            else if e.truthy && decide (e.typeof = "object") &&
                e.hasProp "code" && e.hasProp "message" then
              ⟨createJsonRpcErrorResponse id e, [methodName]⟩
            else
              ⟨createJsonRpcErrorResponse id (createStandardJsonRpcError .INTERNAL_ERROR none),
                [methodName]⟩

/-- `isValidJsonRpcPayload(payload)` from the server. -/
def isValidJsonRpcPayload (payload : Json) : Bool :=
  match payload with
  | .arr items => items.all (fun item => isJSONRPCRequest item || isJSONRPCNotification item)
  | _ => isJSONRPCRequest payload || isJSONRPCNotification payload

/-- Result of `handleJsonRpcRequest`: the overall response value together
with the invoked handler names. -/
structure HandleOutcome where
  response : Json
  invoked : List String
deriving Repr

/-- The decode step of `handleJsonRpcRequest`: a string payload is parsed
as JSON (`parse` models `JSON.parse`, `none` a thrown parse error), any
other payload is used as-is. -/
def parsedOf (parse : String → Option Json) (rawJsonPayload : Json) : Option Json :=
  match rawJsonPayload with
  | .str s => parse s
  | j => some j

/-- `handleJsonRpcRequest(rawJsonPayload, context)` from the server. -/
def handleJsonRpcRequest (methods : String → Option Handler) (strict : Bool)
    (parse : String → Option Json) (context : Json) (rawJsonPayload : Json) : HandleOutcome :=
  match parsedOf parse rawJsonPayload with
  | none =>
      ⟨createJsonRpcErrorResponse Json.null (createStandardJsonRpcError .PARSE_ERROR none), []⟩
  | some parsedPayload =>
      if !isValidJsonRpcPayload parsedPayload then
        ⟨createJsonRpcErrorResponse Json.null (createStandardJsonRpcError .INVALID_REQUEST none), []⟩
      else
        match parsedPayload with
        | .arr items =>
            if items.length = 0 then
              ⟨createJsonRpcErrorResponse Json.null
                (createStandardJsonRpcError .INVALID_REQUEST none), []⟩
            else
              let outcomes := items.map (handleSingleRequest methods strict context)
              let responses := (outcomes.map (·.response)).filter (fun r => !r.isNull)
              ⟨if responses.length > 0 then Json.arr responses else Json.null,
                (outcomes.map (·.invoked)).flatten⟩
        | single =>
            let one := handleSingleRequest methods strict context single
            ⟨one.response, one.invoked⟩

/-! ## packages/client/src/index.ts — the correlator

The pending-request registry (`pendingRequests : Map<string|number, PendingRequest>`)
is modelled by the list of its keys; resolving or rejecting a stored
continuation is modelled by an explicit `ClientAction` naming the id it
completes. -/

/-- Completion of a stored continuation: `pending.resolve(value)` or
`pending.reject(error)` where the rejection error carries the `message`,
`code` and `data` taken from the response's error object. -/
inductive ClientAction where
  | resolve (id : Json) (value : Json) : ClientAction
  | reject (id : Json) (code : Json) (message : Json) (data : Json) : ClientAction
deriving Repr

/-- SameValueZero, the key equality of JavaScript `Map`: structural on
primitive values; two separately constructed heap values (arrays, objects)
are distinct keys, and the registry only ever holds the primitive ids
produced by `generateId`. -/
def sameValueZero : Json → Json → Bool
  | .undefined, .undefined => true
  | .null, .null => true
  | .bool a, .bool b => a == b
  | .num a, .num b => a == b
  | .str a, .str b => a == b
  | _, _ => false

/-- `pendingRequests.get(id) !== undefined` on the modelled registry. -/
def pendingContains (pending : List Json) (id : Json) : Bool :=
  pending.any (fun k => sameValueZero k id)

/-- `pendingRequests.delete(id)` on the modelled registry. -/
def pendingDelete (pending : List Json) (id : Json) : List Json :=
  pending.filter (fun k => !sameValueZero k id)

/-- `handleSingleResponse(response)` from the client: returns the registry
after the call and the completion it performed, if any. -/
def handleSingleResponse (pending : List Json) (response : Json) :
    List Json × Option ClientAction :=
  let id := response.getProp "id"
  if id.isNull then (pending, none)
  else if !(pendingContains pending id) then (pending, none)
  else
    let pending' := pendingDelete pending id
    if isJSONRPCSuccessResponse response then
      (pending', some (.resolve id (response.getProp "result")))
    else if isJSONRPCErrorResponse response then
      (pending', some (.reject id ((response.getProp "error").getProp "code")
        ((response.getProp "error").getProp "message")
        ((response.getProp "error").getProp "data")))
    else (pending', none)

/-- The batch loop of `handleResponse`: each element of the array is handed
to `handleSingleResponse` in order, threading the registry. -/
def handleResponseList : List Json → List Json → List Json × List ClientAction
  | pending, [] => (pending, [])
  | pending, r :: rs =>
    let next := handleSingleResponse pending r
    let rest := handleResponseList next.1 rs
    (rest.1, next.2.toList ++ rest.2)

/-- `handleResponse(response, requestId)` from the client: a batch is
processed element by element, anything else is a single response. -/
def handleResponse (pending : List Json) (response : Json) :
    List Json × List ClientAction :=
  match response with
  | .arr rs => handleResponseList pending rs
  | r =>
    let one := handleSingleResponse pending r
    (one.1, one.2.toList)

/-- Where a failure report is written. -/
inductive LogSink where
  | globalConsole : LogSink
  | injectedLogger : LogSink
deriving DecidableEq, Repr

/-- Result of one `notify` call: the message handed to the transport and
the failure report, if any, tagged with the sink that received it. -/
structure NotifyOutcome where
  sent : Json
  warned : Option (LogSink × Json)
deriving Repr

/-- `notify(method, params?)` from the client: builds a notification,
invokes the transport, and catches a transport failure, reporting it with
`console.warn` (`createJsonRpcClient(transport)` receives no logger — the
global console is the only sink).  `notify` returns an outcome in both
cases; the failure is never rethrown to the caller. -/
def notify (transport : Json → Except Json Json) (method : String) (params : Json) :
    NotifyOutcome :=
  let notification := createJsonRpcNotification method params
  match transport notification with
  | .ok _ => ⟨notification, none⟩
  | .error e => ⟨notification, some (.globalConsole, e)⟩

/-! ## Helper lemmas -/

theorem eq_of_sameValueZero {a b : Json} (h : sameValueZero a b = true) : a = b := by
  cases a <;> cases b <;> simp_all [sameValueZero]

theorem ne_null_of_str_or_num {j : Json}
    (h : j.typeof = "string" ∨ j.typeof = "number") : j ≠ Json.null := by
  rintro rfl
  rcases h with h | h <;> simp [Json.typeof] at h

theorem req_notif_exclusive (v : Json) :
    (isJSONRPCRequest v && isJSONRPCNotification v) = false := by
  cases h : v.hasProp "id"
  · have hr : isJSONRPCRequest v = false := by simp [isJSONRPCRequest, h]
    simp [hr]
  · have hn : isJSONRPCNotification v = false := by simp [isJSONRPCNotification, h]
    simp [hn]

theorem succ_err_exclusive (v : Json) :
    (isJSONRPCSuccessResponse v && isJSONRPCErrorResponse v) = false := by
  cases h : v.hasProp "error"
  · have he : isJSONRPCErrorResponse v = false := by simp [isJSONRPCErrorResponse, h]
    simp [he]
  · have hs : isJSONRPCSuccessResponse v = false := by simp [isJSONRPCSuccessResponse, h]
    simp [hs]

theorem notif_succ_exclusive (v : Json) :
    (isJSONRPCNotification v && isJSONRPCSuccessResponse v) = false := by
  cases h : v.hasProp "id"
  · have hs : isJSONRPCSuccessResponse v = false := by simp [isJSONRPCSuccessResponse, h]
    simp [hs]
  · have hn : isJSONRPCNotification v = false := by simp [isJSONRPCNotification, h]
    simp [hn]

theorem notif_err_exclusive (v : Json) :
    (isJSONRPCNotification v && isJSONRPCErrorResponse v) = false := by
  cases h : v.hasProp "id"
  · have he : isJSONRPCErrorResponse v = false := by simp [isJSONRPCErrorResponse, h]
    simp [he]
  · have hn : isJSONRPCNotification v = false := by simp [isJSONRPCNotification, h]
    simp [hn]

/-! ## Claim theorems -/

/-- C1 (counterexample): the four classification predicates are not mutually
exclusive: an object carrying `method`, a string-or-number `id` and a
`result` member satisfies both `isJSONRPCRequest` and
`isJSONRPCSuccessResponse`, and one carrying `method`, `id` and a
well-formed `error` member satisfies both `isJSONRPCRequest` and
`isJSONRPCErrorResponse`. -/
theorem request_response_overlap :
    (isJSONRPCRequest (Json.obj [("jsonrpc", Json.str "2.0"), ("method", Json.str "m"),
        ("id", Json.num 1), ("result", Json.null)]) = true ∧
      isJSONRPCSuccessResponse (Json.obj [("jsonrpc", Json.str "2.0"), ("method", Json.str "m"),
        ("id", Json.num 1), ("result", Json.null)]) = true) ∧
    (isJSONRPCRequest (Json.obj [("jsonrpc", Json.str "2.0"), ("method", Json.str "m"),
        ("id", Json.num 1), ("error", Json.obj [("code", Json.num 0), ("message", Json.str "")])]) = true ∧
      isJSONRPCErrorResponse (Json.obj [("jsonrpc", Json.str "2.0"), ("method", Json.str "m"),
        ("id", Json.num 1), ("error", Json.obj [("code", Json.num 0), ("message", Json.str "")])]) = true) := by
  decide

/-- C1 (amended): the classification predicates are pairwise exclusive for
every pair except {`isJSONRPCRequest`, `isJSONRPCSuccessResponse`} and
{`isJSONRPCRequest`, `isJSONRPCErrorResponse`}: the presence or absence of
`id` separates Request from Notification (and Notification from both
response shapes), and the mutual exclusion of `result`/`error` separates
the two response shapes from each other. -/
theorem classification_pairwise_exclusive (v : Json) :
    (isJSONRPCRequest v && isJSONRPCNotification v) = false ∧
    (isJSONRPCSuccessResponse v && isJSONRPCErrorResponse v) = false ∧
    (isJSONRPCNotification v && isJSONRPCSuccessResponse v) = false ∧
    (isJSONRPCNotification v && isJSONRPCErrorResponse v) = false :=
  ⟨req_notif_exclusive v, succ_err_exclusive v, notif_succ_exclusive v, notif_err_exclusive v⟩

theorem andE_pureB (a : Bool) (f : Unit → Except String Bool) :
    andE (pureB a) f = if a then f () else .ok false := by
  cases a <;> rfl

theorem andE_ok (a : Bool) (f : Unit → Except String Bool) :
    andE (.ok a) f = if a then f () else .ok false := by
  cases a <;> rfl

theorem band_eq_ite (a b : Bool) : (a && b) = if a then b else false := by
  cases a <;> rfl

theorem typeof_obj (fs : List (String × Json)) : Json.typeof (.obj fs) = "object" := rfl

theorem jsInE_of_object {v : Json} (h1 : v.typeof = "object") (h2 : v.isNull = false)
    (k : String) : jsInE k v = .ok (v.hasProp k) := by
  cases v <;> simp_all [Json.typeof, Json.isNull, jsInE]

/-- C9: the six classification predicates are total and never throw: on
every input (including `undefined`, `null`, booleans, numbers, strings,
arrays and objects) the evaluation with the real, throwing `in` operator
returns `ok` of exactly the boolean the predicate computes. -/
theorem classification_never_throws (j : Json) :
    isJSONRPCRequestE j = .ok (isJSONRPCRequest j) ∧
    isJSONRPCNotificationE j = .ok (isJSONRPCNotification j) ∧
    isJSONRPCSuccessResponseE j = .ok (isJSONRPCSuccessResponse j) ∧
    isJSONRPCErrorResponseE j = .ok (isJSONRPCErrorResponse j) ∧
    isJSONRPCResponseE j = .ok (isJSONRPCResponse j) ∧
    isJSONRPCErrorE j = .ok (isJSONRPCError j) := by
  have hreq : isJSONRPCRequestE j = .ok (isJSONRPCRequest j) := by
    cases j <;> try rfl
    case obj fs =>
      simp only [isJSONRPCRequestE, isJSONRPCRequest, andE.eq_def, pureB, jsInE]
      repeat' split
      all_goals simp_all [Json.typeof, Json.isNull]
  have hnot : isJSONRPCNotificationE j = .ok (isJSONRPCNotification j) := by
    cases j <;> try rfl
    case obj fs =>
      simp only [isJSONRPCNotificationE, isJSONRPCNotification, andE.eq_def, pureB, jsInE, notE]
      repeat' split
      all_goals simp_all [Json.typeof, Json.isNull]
  have hsucc : isJSONRPCSuccessResponseE j = .ok (isJSONRPCSuccessResponse j) := by
    cases j <;> try rfl
    case obj fs =>
      simp only [isJSONRPCSuccessResponseE, isJSONRPCSuccessResponse, andE.eq_def, pureB,
        jsInE, notE]
      repeat' split
      all_goals simp_all [Json.typeof, Json.isNull]
  have herr : isJSONRPCErrorResponseE j = .ok (isJSONRPCErrorResponse j) := by
    cases j <;> try rfl
    case obj fs =>
      simp only [isJSONRPCErrorResponseE, isJSONRPCErrorResponse]
      cases he : (Json.obj fs).getProp "error" <;>
        simp only [he, andE.eq_def, pureB, jsInE, notE] <;>
        repeat' split
      all_goals simp_all [Json.typeof, Json.isNull]
  have hresp : isJSONRPCResponseE j = .ok (isJSONRPCResponse j) := by
    rw [isJSONRPCResponseE, isJSONRPCResponse, hsucc, herr]
    cases isJSONRPCSuccessResponse j <;> simp
  have hobj : isJSONRPCErrorE j = .ok (isJSONRPCError j) := by
    cases j <;> try rfl
    case obj fs =>
      simp only [isJSONRPCErrorE, isJSONRPCError, andE.eq_def, pureB, jsInE]
      repeat' split
      all_goals simp_all [Json.typeof, Json.isNull]
  exact ⟨hreq, hnot, hsucc, herr, hresp, hobj⟩


/-- C7: a response whose `id` is `null`, or whose `id` matches no entry of
the pending-request registry, is dropped by `handleSingleResponse`: the
registry is left unchanged and no stored continuation is resolved or
rejected. -/
theorem unmatched_response_dropped (pending : List Json) (response : Json)
    (h : response.getProp "id" = Json.null ∨
      pendingContains pending (response.getProp "id") = false) :
    handleSingleResponse pending response = (pending, none) := by
  unfold handleSingleResponse
  rcases h with h | h
  · simp [h, Json.isNull]
  · by_cases hn : (response.getProp "id").isNull = true
    · simp [hn]
    · simp [hn, h]

/-- C7 (witness): a success response for id 2 while only id 1 is pending is
dropped without touching the registry. -/
theorem unmatched_response_dropped_check :
    handleSingleResponse [Json.num 1]
      (Json.obj [("jsonrpc", Json.str "2.0"), ("id", Json.num 2), ("result", Json.null)]) =
      ([Json.num 1], none) :=
  unmatched_response_dropped _ _ (Or.inr rfl)

/-- C8 (counterexample): when the transport fails, `notify` reports the
failure with the global `console.warn`; the client has no injected logger
collaborator (`createJsonRpcClient` receives only the transport), so the
report does not go to a construction-time logger. -/
theorem notify_failure_goes_to_console :
    (notify (fun _ => .error (Json.str "transport down")) "log"
        (Json.obj [("m", Json.str "x")])).warned =
      some (LogSink.globalConsole, Json.str "transport down") ∧
    LogSink.globalConsole ≠ LogSink.injectedLogger :=
  ⟨rfl, by decide⟩

/-- C8 (amended): `notify` builds a Notification, hands it to the
transport, and never propagates a transport failure to the caller (it
returns an outcome in every case); a failure is reported via the global
`console.warn`, the only sink the client has. -/
theorem notify_fire_and_forget (transport : Json → Except Json Json)
    (method : String) (params : Json) :
    (notify transport method params).sent = createJsonRpcNotification method params ∧
    (notify transport method params).warned =
      (match transport (createJsonRpcNotification method params) with
       | .ok _ => none
       | .error e => some (LogSink.globalConsole, e)) := by
  cases htr : transport (createJsonRpcNotification method params) <;>
    simp [notify, htr]

/-- C2 (counterexample): a handler failure value carrying `code` and
`message` members of the wrong runtime types (a string code and a numeric
message) is not a structural ErrorObject, yet `handleSingleRequest` returns
it verbatim instead of the InternalError the claim requires. -/
theorem untyped_fault_returned_verbatim :
    (handleSingleRequest
        (fun s => if s = "m" then
          some (fun _ _ => .error (Json.obj [("code", Json.str "boom"), ("message", Json.num 5)]))
          else none)
        true Json.null
        (Json.obj [("jsonrpc", Json.str "2.0"), ("method", Json.str "m"),
          ("id", Json.num 7)])).response =
      createJsonRpcErrorResponse (Json.num 7)
        (Json.obj [("code", Json.str "boom"), ("message", Json.num 5)]) ∧
    isJSONRPCError (Json.obj [("code", Json.str "boom"), ("message", Json.num 5)]) = false ∧
    createJsonRpcErrorResponse (Json.num 7)
        (Json.obj [("code", Json.str "boom"), ("message", Json.num 5)]) ≠
      createJsonRpcErrorResponse (Json.num 7) (createStandardJsonRpcError .INTERNAL_ERROR none) := by
  refine ⟨rfl, rfl, ?_⟩
  intro h
  simp [createJsonRpcErrorResponse, createStandardJsonRpcError, createJsonRpcError,
    JSONRPC_ERROR_CODES, JSONRPC_ERROR_MESSAGES] at h


theorem weak_error_check_of_isJSONRPCError {e : Json} (h : isJSONRPCError e = true) :
    (e.truthy && decide (e.typeof = "object") && e.hasProp "code" && e.hasProp "message") = true := by
  cases e <;> simp_all [isJSONRPCError, Json.typeof, Json.isNull, Json.truthy]

/-- C2 (amended): when a request's handler throws value `e`, the dispatcher
returns it verbatim as the error member exactly when `e` is truthy, an
object, and carries `code` and `message` members — regardless of their
runtime types; in particular every structural ErrorObject is returned
verbatim.  Only when that weaker presence check fails does the dispatcher
answer with the standard InternalError, which carries none of `e`. -/
theorem handler_fault_mapping
    (methods : String → Option Handler) (strict : Bool) (context request e : Json)
    (handler : Handler) (s : String)
    (hreq : isJSONRPCRequest request = true)
    (hs : request.getProp "method" = Json.str s)
    (hm : methods s = some handler)
    (hthrow : handler (request.getProp "params") context = .error e) :
    (handleSingleRequest methods strict context request).response =
      (if e.truthy && decide (e.typeof = "object") && e.hasProp "code" && e.hasProp "message"
       then createJsonRpcErrorResponse (request.getProp "id") e
       else createJsonRpcErrorResponse (request.getProp "id")
         (createStandardJsonRpcError .INTERNAL_ERROR none)) ∧
    (isJSONRPCError e = true →
      (handleSingleRequest methods strict context request).response =
        createJsonRpcErrorResponse (request.getProp "id") e) := by
  have hexcl := req_notif_exclusive request
  rw [hreq, Bool.true_and] at hexcl
  have hmain : (handleSingleRequest methods strict context request).response =
      (if e.truthy && decide (e.typeof = "object") && e.hasProp "code" && e.hasProp "message"
       then createJsonRpcErrorResponse (request.getProp "id") e
       else createJsonRpcErrorResponse (request.getProp "id")
         (createStandardJsonRpcError .INTERNAL_ERROR none)) := by
    unfold handleSingleRequest
    rw [hreq, hexcl, hs]
    simp only [Bool.not_true, Bool.not_false, Bool.false_and, Bool.and_false, if_false,
      Bool.false_eq_true, if_true]
    rw [hm]
    simp only [hthrow]
    split <;> rfl
  refine ⟨hmain, fun hE => ?_⟩
  rw [hmain, if_pos (weak_error_check_of_isJSONRPCError hE)]

/-- C2 (witness): a handler throwing a well-typed ErrorObject
`{code: -32001, message: "custom"}` gets it back verbatim in the
error response. -/
theorem handler_fault_mapping_check :
    (handleSingleRequest
        (fun s => if s = "m" then
          some (fun _ _ => .error (Json.obj [("code", Json.num (-32001)),
            ("message", Json.str "custom")]))
          else none)
        true Json.null
        (Json.obj [("jsonrpc", Json.str "2.0"), ("method", Json.str "m"),
          ("id", Json.num 7)])).response =
      createJsonRpcErrorResponse (Json.num 7)
        (Json.obj [("code", Json.num (-32001)), ("message", Json.str "custom")]) := by
  have h := handler_fault_mapping
    (fun s => if s = "m" then
      some (fun _ _ => .error (Json.obj [("code", Json.num (-32001)),
        ("message", Json.str "custom")]))
      else none)
    true Json.null
    (Json.obj [("jsonrpc", Json.str "2.0"), ("method", Json.str "m"), ("id", Json.num 7)])
    (Json.obj [("code", Json.num (-32001)), ("message", Json.str "custom")])
    (fun _ _ => .error (Json.obj [("code", Json.num (-32001)), ("message", Json.str "custom")]))
    "m" rfl rfl rfl rfl
  exact h.2 rfl


/-- C4: a decoded payload that is a single value satisfying neither
`isJSONRPCRequest` nor `isJSONRPCNotification`, or an array with at least
one such element, makes `handleJsonRpcRequest` answer with exactly one
ErrorResponse carrying id `null` and code `-32600`, and no handler is
invoked for any element. -/
theorem invalid_payload_rejected_atomically
    (methods : String → Option Handler) (strict : Bool) (parse : String → Option Json)
    (context rawJsonPayload payload : Json)
    (hp : parsedOf parse rawJsonPayload = some payload)
    (hbad : ((∀ xs, payload ≠ Json.arr xs) ∧ isJSONRPCRequest payload = false ∧
          isJSONRPCNotification payload = false) ∨
        (∃ xs, payload = Json.arr xs ∧ ∃ e, e ∈ xs ∧ isJSONRPCRequest e = false ∧
          isJSONRPCNotification e = false)) :
    handleJsonRpcRequest methods strict parse context rawJsonPayload =
      ⟨createJsonRpcErrorResponse Json.null (createStandardJsonRpcError .INVALID_REQUEST none), []⟩ ∧
    (createJsonRpcErrorResponse Json.null
      (createStandardJsonRpcError .INVALID_REQUEST none)).getProp "id" = Json.null ∧
    ((createJsonRpcErrorResponse Json.null
      (createStandardJsonRpcError .INVALID_REQUEST none)).getProp "error").getProp "code" =
      Json.num (-32600) := by
  have hval : isValidJsonRpcPayload payload = false := by
    rcases hbad with ⟨hna, hr, hn⟩ | ⟨xs, rfl, e, he, hr, hn⟩
    · cases payload <;> simp_all [isValidJsonRpcPayload]
    · cases hall : xs.all fun item => isJSONRPCRequest item || isJSONRPCNotification item
      · simp [isValidJsonRpcPayload, hall]
      · exact absurd ((List.all_eq_true.mp hall) e he) (by simp [hr, hn])
  refine ⟨?_, rfl, rfl⟩
  unfold handleJsonRpcRequest
  rw [hp]
  simp [hval]

/-- C4 (witness): the payload `{invalid: "structure"}` is rejected with the
single InvalidRequest error response and no handler call. -/
theorem invalid_payload_rejected_atomically_check :
    handleJsonRpcRequest (fun _ => none) true (fun _ => none) Json.null
      (Json.obj [("invalid", Json.str "structure")]) =
      ⟨createJsonRpcErrorResponse Json.null
        (createStandardJsonRpcError .INVALID_REQUEST none), []⟩ :=
  (invalid_payload_rejected_atomically (fun _ => none) true (fun _ => none) Json.null
    (Json.obj [("invalid", Json.str "structure")]) (Json.obj [("invalid", Json.str "structure")])
    rfl (Or.inl ⟨fun _ h => Json.noConfusion h, rfl, rfl⟩)).1


/-- C5: for a structurally valid non-empty batch, the dispatcher's result
collects exactly the non-null per-element responses in input order, and a
batch in which every element produced `null` (a pure-notification batch,
including the one-element case) yields overall `null`, never `[]`. -/
theorem batch_order_and_pure_notification_null
    (methods : String → Option Handler) (strict : Bool) (parse : String → Option Json)
    (context : Json) (items : List Json)
    (hne : items ≠ [])
    (hval : isValidJsonRpcPayload (Json.arr items) = true) :
    (handleJsonRpcRequest methods strict parse context (Json.arr items)).response =
      (if ((items.map (fun i => (handleSingleRequest methods strict context i).response)).filter
          (fun r => !r.isNull)).isEmpty
       then Json.null
       else Json.arr ((items.map (fun i => (handleSingleRequest methods strict context i).response)).filter
          (fun r => !r.isNull))) ∧
    ((∀ i ∈ items, (handleSingleRequest methods strict context i).response = Json.null) →
      (handleJsonRpcRequest methods strict parse context (Json.arr items)).response = Json.null) := by
  have hlen : ¬(items.length = 0) := by
    simpa [List.length_eq_zero] using hne
  have hmain : (handleJsonRpcRequest methods strict parse context (Json.arr items)).response =
      (if ((items.map (fun i => (handleSingleRequest methods strict context i).response)).filter
          (fun r => !r.isNull)).isEmpty
       then Json.null
       else Json.arr ((items.map (fun i => (handleSingleRequest methods strict context i).response)).filter
          (fun r => !r.isNull))) := by
    unfold handleJsonRpcRequest parsedOf
    simp only [hval, Bool.not_true, Bool.false_eq_true, if_false, hlen, List.map_map]
    cases hrs : (items.map (fun i => (handleSingleRequest methods strict context i).response)).filter
        (fun r => !r.isNull) with
    | nil => simp [hrs, Function.comp_def]
    | cons a rest => simp [hrs, Function.comp_def]
  refine ⟨hmain, fun hall => ?_⟩
  rw [hmain]
  have hfil : (items.map (fun i => (handleSingleRequest methods strict context i).response)).filter
      (fun r => !r.isNull) = [] := by
    rw [List.filter_eq_nil_iff]
    intro a ha
    rcases List.mem_map.mp ha with ⟨i, hi, rfl⟩
    rw [hall i hi]
    simp [Json.isNull]
  rw [hfil]
  rfl

/-- C5 (witness): the one-element batch holding a single notification for
an unregistered method yields overall `null`, not `[]`. -/
theorem batch_order_and_pure_notification_null_check :
    (handleJsonRpcRequest (fun _ => none) true (fun _ => none) Json.null
      (Json.arr [Json.obj [("jsonrpc", Json.str "2.0"), ("method", Json.str "log")]])).response =
      Json.null :=
  (batch_order_and_pure_notification_null (fun _ => none) true (fun _ => none) Json.null
      [Json.obj [("jsonrpc", Json.str "2.0"), ("method", Json.str "log")]]
      (by simp) rfl).2
    (by intro i hi; simp at hi; subst hi; rfl)


theorem id_type_of_request {e : Json} (h : isJSONRPCRequest e = true) :
    (e.getProp "id").typeof = "string" ∨ (e.getProp "id").typeof = "number" := by
  cases e <;> simp_all [isJSONRPCRequest, Json.typeof, Json.isNull]

/-- C10: every element of a structurally valid batch satisfies one of the
two request predicates, so the InvalidRequest branch inside
`handleSingleRequest` is unreachable for it: its per-element result is
never the ErrorResponse with id `null` and code `-32600` (indeed it is
`null` or carries the element's own non-null id). -/
theorem valid_batch_element_never_invalid
    (methods : String → Option Handler) (strict : Bool) (context : Json)
    (items : List Json) (e : Json)
    (hval : isValidJsonRpcPayload (Json.arr items) = true)
    (he : e ∈ items) :
    (handleSingleRequest methods strict context e).response ≠
      createJsonRpcErrorResponse Json.null (createStandardJsonRpcError .INVALID_REQUEST none) ∧
    ((handleSingleRequest methods strict context e).response = Json.null ∨
      (handleSingleRequest methods strict context e).response.getProp "id" ≠ Json.null) := by
  have hv : (isJSONRPCRequest e || isJSONRPCNotification e) = true := by
    have h1 := hval
    simp only [isValidJsonRpcPayload, List.all_eq_true] at h1
    exact h1 e he
  have hshape : (handleSingleRequest methods strict context e).response = Json.null ∨
      (handleSingleRequest methods strict context e).response.getProp "id" ≠ Json.null := by
    cases hr : isJSONRPCRequest e with
    | false =>
      cases hn : isJSONRPCNotification e with
      | false => rw [hr, hn] at hv; simp at hv
      | true =>
        unfold handleSingleRequest
        rw [hr, hn]
        simp only [Bool.not_false, Bool.not_true, Bool.true_and, Bool.and_false, if_false,
          Bool.false_eq_true, if_true]
        repeat' split
        all_goals exact Or.inl rfl
    | true =>
      have hn : isJSONRPCNotification e = false := by
        have hx := req_notif_exclusive e
        rw [hr, Bool.true_and] at hx
        exact hx
      have hid : e.getProp "id" ≠ Json.null := ne_null_of_str_or_num (id_type_of_request hr)
      unfold handleSingleRequest
      rw [hr, hn]
      simp only [Bool.not_true, Bool.not_false, Bool.false_and, Bool.and_false, if_false,
        Bool.false_eq_true, if_true]
      repeat' split
      all_goals
        first
          | exact Or.inl rfl
          | (refine Or.inr ?_
             simpa [createJsonRpcSuccessResponse, createJsonRpcErrorResponse, Json.getProp,
               lookupField] using hid)
  refine ⟨?_, hshape⟩
  rcases hshape with h | h
  · rw [h]
    intro hc
    simp [createJsonRpcErrorResponse] at hc
  · intro hc
    rw [hc] at h
    exact h rfl

/-- C10 (witness): a valid one-request batch element for an unknown method
yields the MethodNotFound response for its own id, never the id-null
InvalidRequest response. -/
theorem valid_batch_element_never_invalid_check :
    (handleSingleRequest (fun _ => none) true Json.null
      (Json.obj [("jsonrpc", Json.str "2.0"), ("method", Json.str "m"),
        ("id", Json.num 3)])).response ≠
      createJsonRpcErrorResponse Json.null (createStandardJsonRpcError .INVALID_REQUEST none) :=
  (valid_batch_element_never_invalid (fun _ => none) true Json.null
    [Json.obj [("jsonrpc", Json.str "2.0"), ("method", Json.str "m"), ("id", Json.num 3)]]
    (Json.obj [("jsonrpc", Json.str "2.0"), ("method", Json.str "m"), ("id", Json.num 3)])
    rfl (List.mem_singleton.mpr rfl)).1


/-- The result classification asserted by the specification for the
dispatcher (stated from the claim, for comparison with the dispatcher's
actual behaviour): a single value accepted by the library's own response
classifier `isJSONRPCResponse`, an array of such values, or `null`. -/
def resultIsResponseValue (r : Json) : Bool :=
  isJSONRPCResponse r ||
  (match r with
   | .arr xs => xs.all isJSONRPCResponse
   | _ => false) ||
  r.isNull

/-- A value of response shape: an object with `jsonrpc` equal to `"2.0"`,
an `id` member, and exactly one of `result`/`error` (the error member's own
shape is not constrained). -/
def responseShaped (r : Json) : Bool :=
  decide (r.typeof = "object") && !r.isNull &&
  (r.getProp "jsonrpc").strictEqStr "2.0" && r.hasProp "id" &&
  (r.hasProp "result" != r.hasProp "error")

/-- The dispatcher's actual result classification: a response-shaped value,
an array of response-shaped values, or `null`. -/
def resultResponseShaped (r : Json) : Bool :=
  responseShaped r ||
  (match r with
   | .arr xs => xs.all responseShaped
   | _ => false) ||
  r.isNull

/-- C3 (counterexample): a request whose handler throws
`{code: "x", message: 5}` makes `handleJsonRpcRequest` return a value that
is neither `null`, nor a value satisfying `isJSONRPCResponse`, nor an array
of such values: the thrown object is echoed as the `error` member, whose
`code` is not numeric. -/
theorem dispatcher_result_escapes_response_classification :
    resultIsResponseValue
      ((handleJsonRpcRequest
        (fun s => if s = "m" then
          some (fun _ _ => .error (Json.obj [("code", Json.str "x"), ("message", Json.num 5)]))
          else none)
        true (fun _ => none) Json.null
        (Json.obj [("jsonrpc", Json.str "2.0"), ("method", Json.str "m"),
          ("id", Json.num 1)])).response) = false := rfl

theorem handleSingleRequest_shape (methods : String → Option Handler) (strict : Bool)
    (context request : Json) :
    (responseShaped (handleSingleRequest methods strict context request).response ||
      (handleSingleRequest methods strict context request).response.isNull) = true := by
  cases hr : isJSONRPCRequest request with
  | true =>
    have hn : isJSONRPCNotification request = false := by
      have hx := req_notif_exclusive request
      rw [hr, Bool.true_and] at hx
      exact hx
    unfold handleSingleRequest
    rw [hr, hn]
    simp only [Bool.not_true, Bool.not_false, Bool.false_and, Bool.and_false, if_false,
      Bool.false_eq_true, if_true]
    repeat' split
    all_goals
      simp [responseShaped, createJsonRpcErrorResponse, createJsonRpcSuccessResponse,
        createStandardJsonRpcError, createJsonRpcError, Json.typeof, Json.isNull, Json.getProp,
        Json.hasProp, lookupField, Json.strictEqStr]
  | false =>
    cases hn : isJSONRPCNotification request with
    | true =>
      unfold handleSingleRequest
      rw [hr, hn]
      simp only [Bool.not_false, Bool.not_true, Bool.true_and, Bool.and_false, if_false,
        Bool.false_eq_true, if_true]
      repeat' split
      all_goals simp [Json.isNull]
    | false =>
      unfold handleSingleRequest
      rw [hr, hn]
      simp [responseShaped, createJsonRpcErrorResponse, createStandardJsonRpcError,
        createJsonRpcError, Json.typeof, Json.isNull, Json.getProp, Json.hasProp, lookupField,
        Json.strictEqStr]

/-- C3 (amended): `handleJsonRpcRequest` is a total operation; its result is
always `null`, a response-shaped value, or an array of response-shaped
values, and every payload-level failure (undecodable text, structurally
invalid value, empty batch) produces the corresponding standard
ErrorResponse, which satisfies `isJSONRPCErrorResponse`.  (Only a request
whose handler throws an object whose `code`/`message` members have the
wrong runtime types yields a result that escapes the stricter
`isJSONRPCResponse` classification.) -/
theorem dispatcher_total_shape (methods : String → Option Handler) (strict : Bool)
    (parse : String → Option Json) (context rawJsonPayload : Json) :
    resultResponseShaped
      (handleJsonRpcRequest methods strict parse context rawJsonPayload).response = true ∧
    (parsedOf parse rawJsonPayload = none →
      (handleJsonRpcRequest methods strict parse context rawJsonPayload).response =
        createJsonRpcErrorResponse Json.null (createStandardJsonRpcError .PARSE_ERROR none)) ∧
    (∀ payload, parsedOf parse rawJsonPayload = some payload →
      isValidJsonRpcPayload payload = false →
      (handleJsonRpcRequest methods strict parse context rawJsonPayload).response =
        createJsonRpcErrorResponse Json.null (createStandardJsonRpcError .INVALID_REQUEST none)) ∧
    (parsedOf parse rawJsonPayload = some (Json.arr []) →
      (handleJsonRpcRequest methods strict parse context rawJsonPayload).response =
        createJsonRpcErrorResponse Json.null (createStandardJsonRpcError .INVALID_REQUEST none)) ∧
    isJSONRPCErrorResponse
      (createJsonRpcErrorResponse Json.null (createStandardJsonRpcError .PARSE_ERROR none)) = true ∧
    isJSONRPCErrorResponse
      (createJsonRpcErrorResponse Json.null
        (createStandardJsonRpcError .INVALID_REQUEST none)) = true := by
  refine ⟨?_, ?_, ?_, ?_, rfl, rfl⟩
  · unfold handleJsonRpcRequest
    cases hp : parsedOf parse rawJsonPayload with
    | none => rfl
    | some p =>
      by_cases hval : isValidJsonRpcPayload p = true
      case neg =>
        rw [Bool.not_eq_true] at hval
        simp only [hval, Bool.not_false, if_true]
        rfl
      case pos =>
        have hsingle : ∀ q : Json,
            resultResponseShaped (handleSingleRequest methods strict context q).response = true := by
          intro q
          have hs := handleSingleRequest_shape methods strict context q
          simp only [resultResponseShaped]
          rcases Bool.or_eq_true_iff.mp hs with h | h <;> simp [h]
        simp only [hval, Bool.not_true, Bool.false_eq_true, if_false]
        match p with
        | .arr items =>
          by_cases hlen : items.length = 0
          case pos => simp only [hlen, if_true]; rfl
          case neg =>
            simp only [hlen, if_false]
            have hall : ∀ r ∈ (items.map
                (handleSingleRequest methods strict context)).map (fun x => x.response)
                |>.filter (fun r => !r.isNull), responseShaped r = true := by
              intro r hr
              rcases List.mem_filter.mp hr with ⟨hmem, hkeep⟩
              rcases List.mem_map.mp hmem with ⟨o, ho, rfl⟩
              rcases List.mem_map.mp ho with ⟨i, hi, rfl⟩
              have hs := handleSingleRequest_shape methods strict context i
              rcases Bool.or_eq_true_iff.mp hs with h | h
              · exact h
              · rw [h] at hkeep
                simp at hkeep
            cases hpos : ((items.map (handleSingleRequest methods strict context)).map
                (fun x => x.response)).filter (fun r => !r.isNull) with
            | nil => simp [hpos]; rfl
            | cons a rest =>
              simp only [hpos, List.length_cons]
              simp only [resultResponseShaped, Nat.zero_lt_succ, if_pos]
              have : (a :: rest).all responseShaped = true := by
                rw [List.all_eq_true]
                intro r hr
                apply hall
                rw [hpos]
                exact hr
              simp [this]
        | .undefined | .null | .bool _ | .num _ | .str _ | .obj _ =>
          exact hsingle _
  · intro hp
    unfold handleJsonRpcRequest
    rw [hp]
  · intro payload hp hval
    unfold handleJsonRpcRequest
    rw [hp]
    simp [hval]
  · intro hp
    unfold handleJsonRpcRequest
    rw [hp]
    rfl

/-- C3 (witness): undecodable text produces the ParseError response. -/
theorem dispatcher_total_shape_check :
    (handleJsonRpcRequest (fun _ => none) true (fun _ => none) Json.null
      (Json.str "this is not json")).response =
      createJsonRpcErrorResponse Json.null (createStandardJsonRpcError .PARSE_ERROR none) :=
  (dispatcher_total_shape (fun _ => none) true (fun _ => none) Json.null
    (Json.str "this is not json")).2.1 rfl


theorem id_type_of_success {r : Json} (h : isJSONRPCSuccessResponse r = true) :
    (r.getProp "id").typeof = "string" ∨ (r.getProp "id").typeof = "number" := by
  cases r <;> simp_all [isJSONRPCSuccessResponse, Json.typeof, Json.isNull]

theorem isNull_false_of_str_or_num {j : Json}
    (h : j.typeof = "string" ∨ j.typeof = "number") : j.isNull = false := by
  cases j <;> simp_all [Json.typeof, Json.isNull]

theorem single_success_resolves (pending : List Json) (i response : Json)
    (h1 : pendingContains pending i = true)
    (h2 : isJSONRPCSuccessResponse response = true)
    (h3 : response.getProp "id" = i) :
    handleSingleResponse pending response =
      (pendingDelete pending i, some (.resolve i (response.getProp "result"))) := by
  have hnn : i.isNull = false := by
    have := id_type_of_success h2
    rw [h3] at this
    exact isNull_false_of_str_or_num this
  simp [handleSingleResponse, h3, hnn, h1, h2]

theorem single_error_rejects (pending : List Json) (i response : Json)
    (h1 : pendingContains pending i = true)
    (h2 : isJSONRPCErrorResponse response = true)
    (h3 : response.getProp "id" = i)
    (h4 : i.isNull = false) :
    handleSingleResponse pending response =
      (pendingDelete pending i, some (.reject i ((response.getProp "error").getProp "code")
        ((response.getProp "error").getProp "message")
        ((response.getProp "error").getProp "data"))) := by
  have hns : isJSONRPCSuccessResponse response = false := by
    have hx := succ_err_exclusive response
    rw [h2, Bool.and_true] at hx
    exact hx
  simp [handleSingleResponse, h3, h4, h1, h2, hns]

theorem pendingContains_pendingDelete_ne (pending : List Json) {i id0 : Json}
    (hne : id0 ≠ i) (h : pendingContains pending i = true) :
    pendingContains (pendingDelete pending id0) i = true := by
  induction pending with
  | nil => simp [pendingContains] at h
  | cons k rest ih =>
    simp only [pendingContains, List.any_cons, Bool.or_eq_true] at h
    rcases h with hk | hrest
    · have hki : k = i := eq_of_sameValueZero hk
      subst hki
      have hkd : sameValueZero k id0 = false := by
        cases hs : sameValueZero k id0
        · rfl
        · exact absurd (eq_of_sameValueZero hs).symm hne
      simp [pendingDelete, pendingContains, hkd, hk]
    · have hres := ih hrest
      by_cases hkd : sameValueZero k id0 = true
      · simpa [pendingDelete, hkd] using hres
      · rw [Bool.not_eq_true] at hkd
        simp only [pendingDelete, List.filter_cons, hkd, Bool.not_false, if_true,
          pendingContains, List.any_cons, Bool.or_eq_true]
        right
        simpa [pendingDelete, pendingContains] using hres

theorem pendingContains_after_handleSingle {pending : List Json} {i : Json} (r0 : Json)
    (hid0 : r0.getProp "id" ≠ i)
    (h1 : pendingContains pending i = true) :
    pendingContains (handleSingleResponse pending r0).1 i = true := by
  unfold handleSingleResponse
  by_cases hn0 : (r0.getProp "id").isNull = true
  · simpa [hn0] using h1
  · by_cases hc0 : pendingContains pending (r0.getProp "id") = true
    · simp only [hn0, hc0, Bool.not_true, Bool.false_eq_true, if_false, if_true]
      have hdel := pendingContains_pendingDelete_ne pending hid0 h1
      repeat' split
      all_goals exact hdel
    · rw [Bool.not_eq_true] at hc0
      simp [hn0, hc0, h1]

theorem handleResponseList_mem_action (r i : Json) (act : ClientAction)
    (hact : ∀ p, pendingContains p i = true →
      handleSingleResponse p r = (pendingDelete p i, some act)) :
    ∀ (rs : List Json) (pending : List Json),
      r ∈ rs →
      (∀ r' ∈ rs, r'.getProp "id" = i → r' = r) →
      r.getProp "id" = i →
      pendingContains pending i = true →
      act ∈ (handleResponseList pending rs).2 := by
  intro rs
  induction rs with
  | nil =>
    intro pending hr _ _ _
    cases hr
  | cons r0 rest ih =>
    intro pending hr huniq h3 h1
    by_cases he : r0 = r
    · subst he
      rw [handleResponseList, hact pending h1]
      simp
    · have hr' : r ∈ rest := by
        rcases List.mem_cons.mp hr with h | h
        · exact absurd h.symm he
        · exact h
      have hid0 : r0.getProp "id" ≠ i := fun hcontra =>
        he (huniq r0 (List.mem_cons_self r0 rest) hcontra)
      rw [handleResponseList]
      refine List.mem_append.mpr (Or.inr ?_)
      exact ih (handleSingleResponse pending r0).1 hr'
        (fun r' h' => huniq r' (List.mem_cons_of_mem _ h')) h3
        (pendingContains_after_handleSingle r0 hid0 h1)

/-- C6: for a pending call registered under id `i`: a transport fulfillment
value that is (or is an array containing) the SuccessResponse with id `i`
makes the stored continuation resolve with that response's `result`
member, and one that is (or contains) the ErrorResponse with id `i` makes
it reject with the `code`, `message` and `data` members of that response's
error object; in both cases the entry for `i` leaves the registry.  (In the
array cases the response with id `i` is the unique element carrying that
id; registered ids are the string-or-number values the client generates,
never `null`.) -/
theorem correlator_completes_matching_calls :
    (∀ (pending : List Json) (i response : Json), pendingContains pending i = true →
      isJSONRPCSuccessResponse response = true → response.getProp "id" = i →
      handleSingleResponse pending response =
        (pendingDelete pending i, some (.resolve i (response.getProp "result")))) ∧
    (∀ (pending : List Json) (i response : Json), pendingContains pending i = true →
      isJSONRPCErrorResponse response = true → response.getProp "id" = i → i.isNull = false →
      handleSingleResponse pending response =
        (pendingDelete pending i, some (.reject i ((response.getProp "error").getProp "code")
          ((response.getProp "error").getProp "message")
          ((response.getProp "error").getProp "data")))) ∧
    (∀ (pending : List Json) (i : Json) (rs : List Json) (r : Json),
      pendingContains pending i = true →
      isJSONRPCSuccessResponse r = true → r.getProp "id" = i → r ∈ rs →
      (∀ r' ∈ rs, r'.getProp "id" = i → r' = r) →
      ClientAction.resolve i (r.getProp "result") ∈ (handleResponse pending (Json.arr rs)).2) ∧
    (∀ (pending : List Json) (i : Json) (rs : List Json) (r : Json),
      pendingContains pending i = true →
      isJSONRPCErrorResponse r = true → r.getProp "id" = i → i.isNull = false → r ∈ rs →
      (∀ r' ∈ rs, r'.getProp "id" = i → r' = r) →
      ClientAction.reject i ((r.getProp "error").getProp "code")
        ((r.getProp "error").getProp "message") ((r.getProp "error").getProp "data") ∈
        (handleResponse pending (Json.arr rs)).2) := by
  refine ⟨single_success_resolves, single_error_rejects, ?_, ?_⟩
  · intro pending i rs r h1 h2 h3 hr huniq
    exact handleResponseList_mem_action r i _
      (fun p hp => single_success_resolves p i r hp h2 h3) rs pending hr huniq h3 h1
  · intro pending i rs r h1 h2 h3 h4 hr huniq
    exact handleResponseList_mem_action r i _
      (fun p hp => single_error_rejects p i r hp h2 h3 h4) rs pending hr huniq h3 h1

/-- C6 (witness): with id 1 pending, the matching success response in a
one-element batch resolves the continuation with its `result`, and a
matching single error response rejects with the error's fields. -/
theorem correlator_completes_matching_calls_check :
    ClientAction.resolve (Json.num 1) (Json.num 3) ∈
      (handleResponse [Json.num 1]
        (Json.arr [Json.obj [("jsonrpc", Json.str "2.0"), ("id", Json.num 1),
          ("result", Json.num 3)]])).2 ∧
    handleSingleResponse [Json.num 2]
      (Json.obj [("jsonrpc", Json.str "2.0"), ("id", Json.num 2),
        ("error", Json.obj [("code", Json.num (-32001)), ("message", Json.str "custom")])]) =
      ([], some (.reject (Json.num 2) (Json.num (-32001)) (Json.str "custom") Json.undefined)) :=
  ⟨correlator_completes_matching_calls.2.2.1 [Json.num 1] (Json.num 1)
      [Json.obj [("jsonrpc", Json.str "2.0"), ("id", Json.num 1), ("result", Json.num 3)]]
      (Json.obj [("jsonrpc", Json.str "2.0"), ("id", Json.num 1), ("result", Json.num 3)])
      rfl rfl rfl (List.mem_singleton.mpr rfl)
      (fun _ hr' _ => List.mem_singleton.mp hr'),
    correlator_completes_matching_calls.2.1 [Json.num 2] (Json.num 2)
      (Json.obj [("jsonrpc", Json.str "2.0"), ("id", Json.num 2),
        ("error", Json.obj [("code", Json.num (-32001)), ("message", Json.str "custom")])])
      rfl rfl rfl rfl⟩

end TsJsonRpc
